import Mathlib

set_option linter.unusedVariables false

/-!
Verification development for the apna-backend e-commerce REST API.

This file shallow-embeds the order-creation / payment workflow
(controllers in the repository: the order controller exporting
createOrder, updatePaymentStatus; the admin order controller exporting
getAllOrders, updateOrderStatus; the auth route handler for login) as
executable Lean functions over an explicit store (products and orders),
with the external collaborators (payment gateway, email transport)
modelled by an environment record of oracles.

Money amounts are modelled as integers (the JS code performs exact
arithmetic on the request-level numbers; the claims under study are
ring identities that do not depend on the numeric representation).
Stock and quantities are integers as well, since the unguarded
mongo dollar-inc decrement in the source can drive stock negative.
-/

namespace Apna

/-- A catalog product document (name, price, stock, images), as read by
the order controller and the admin transform. -/
structure Product where
  name : String
  price : Int
  stock : Int
  images : List String
deriving DecidableEq, Repr

/-- A line item as sent in the request body and embedded verbatim in the
order document by createOrder: product id, quantity, client-embedded
price snapshot, size. -/
structure OrderItem where
  product : Nat
  quantity : Int
  price : Int
  size : String
deriving DecidableEq, Repr

/-- One entry of the append-only status history kept on an order. -/
structure StatusEntry where
  status : String
  note : String
  updatedAt : Nat
deriving DecidableEq, Repr

/-- The persisted Order document, with the fields written by the
controllers in the source (createOrder, updatePaymentStatus,
updateOrderStatus). -/
structure OrderDoc where
  id : Nat
  user : Option Nat
  items : List OrderItem
  shippingAddress : String
  totalAmount : Int
  shippingCost : Option Int
  taxPrice : Option Int
  discountAmount : Option Int
  paymentMethod : String
  customerName : String
  customerEmail : String
  paymentStatus : String
  orderStatus : String
  status : String
  statusHistory : List StatusEntry
  paymentIntentId : Option String
deriving DecidableEq, Repr

/-- A stored user document as used by the login route: email, bcrypt
password hash, name, role. -/
structure UserDoc where
  name : String
  email : String
  password : String
  role : String
deriving DecidableEq, Repr

/-- The durable state: product catalog (keyed by id) and order
collection. -/
structure Store where
  products : List (Nat × Product)
  orders : List OrderDoc
deriving DecidableEq, Repr

/-- External collaborators: whether the payment-intent creation call
succeeds, whether an email send succeeds, and the authoritative intent
status the gateway reports for a given payment-intent id. -/
structure Env where
  paymentOk : Bool
  emailOk : Bool
  retrieveIntent : String → String

/-- The request body accepted by createOrder. totalAmount is the
client-supplied total, which the source only uses in its falsy
presence check. -/
structure CreateOrderRequest where
  items : List OrderItem
  shippingAddress : String
  totalAmount : Int
  customerName : String
  customerEmail : String
  paymentMethod : String
  shippingCost : Option Int
  taxPrice : Option Int
  discountAmount : Option Int
deriving DecidableEq, Repr

/-- The observable response of a handler: HTTP status, message, the
internal error code (login), the returned order id, and whether an
email send was attempted during handling. -/
structure ApiResponse where
  status : Nat
  message : String
  errorCode : Option String
  orderId : Option Nat
  emailAttempted : Bool
deriving DecidableEq, Repr

/-- Per-item validation failure in createOrder. -/
inductive OrderError where
  | productNotFound (pid : Nat)
  | outOfStock (pname : String)
deriving DecidableEq, Repr

/-- Rendering of the validation failures to the 400 messages of the
source. -/
def orderErrorMessage : OrderError → String
  | .productNotFound pid => "Product not found: " ++ toString pid
  | .outOfStock n => "Insufficient stock for " ++ n

/-- Product.findById over the catalog. -/
def findProduct (ps : List (Nat × Product)) (pid : Nat) : Option Product :=
  (ps.find? (fun pr => pr.1 = pid)).map (fun pr => pr.2)

/-- Order.findById over the order collection. -/
def findOrder (orders : List OrderDoc) (oid : Nat) : Option OrderDoc :=
  orders.find? (fun o => o.id = oid)

/-- order.save() for an existing document: replace the document with a
matching id. -/
def saveOrder (st : Store) (o : OrderDoc) : Store :=
  { st with orders := st.orders.map (fun x => if x.id = o.id then o else x) }

/-- The validation loop of createOrder: for each item in order, fetch
the product, fail ProductNotFound if the id does not resolve, fail
OutOfStock if stock is below the requested quantity, and accumulate
price times quantity. -/
def validateAndTotal (ps : List (Nat × Product)) : List OrderItem → Except OrderError Int
  | [] => .ok 0
  | it :: rest =>
    match findProduct ps it.product with
    | none => .error (.productNotFound it.product)
    | some p =>
      if p.stock < it.quantity then
        .error (.outOfStock p.name)
      else
        match validateAndTotal ps rest with
        | .error e => .error e
        | .ok t => .ok (p.price * it.quantity + t)

/-- Product.findByIdAndUpdate with a dollar-inc of minus quantity on
stock: decrement the matching product's stock (no effect when the id
does not resolve). -/
def decStock (ps : List (Nat × Product)) (pid : Nat) (q : Int) : List (Nat × Product) :=
  ps.map (fun pr => if pr.1 = pid then (pr.1, { pr.2 with stock := pr.2.stock - q }) else pr)

/-- The stock-update loop of createOrder: decrement stock for each item
of the order in sequence. -/
def decrementStocks (ps : List (Nat × Product)) : List OrderItem → List (Nat × Product)
  | [] => ps
  | it :: rest => decrementStocks (decStock ps it.product it.quantity) rest

/-- The order document constructed and saved by createOrder: items and
address copied from the request, totalAmount set to the server-computed
total, paymentStatus pending, orderStatus processing. -/
def newOrderDoc (req : CreateOrderRequest) (newId : Nat) (total : Int) : OrderDoc :=
  { id := newId
    user := none
    items := req.items
    shippingAddress := req.shippingAddress
    totalAmount := total
    shippingCost := req.shippingCost
    taxPrice := req.taxPrice
    discountAmount := req.discountAmount
    paymentMethod := req.paymentMethod
    customerName := req.customerName
    customerEmail := req.customerEmail
    paymentStatus := "pending"
    orderStatus := "processing"
    status := ""
    statusHistory := []
    paymentIntentId := none }

/-- The update of the just-saved order with the payment-intent id the
gateway returned for it. -/
def withIntent (o : OrderDoc) (newId : Nat) : OrderDoc :=
  { o with paymentIntentId := some ("pi_" ++ toString newId) }

/-- createOrder from the order controller.

Control flow of the source: a falsy check of the required body fields
(empty items, empty strings, zero client total fail with 400); the
per-item validation and total accumulation; addition of shippingCost
and taxPrice and subtraction of discountAmount, each defaulted to zero
when absent; saving of the order; the stock-decrement loop; then the
payment branch. For the card method, a failing payment-intent creation
is caught, deletes the just-created order and rethrows as 500; a
successful creation saves the intent id onto the order and awaits the
confirmation email inside the same try block, so a failing email also
deletes the order and yields 500, while success answers 201. For any
other method, the confirmation email is awaited without a local
handler, so a failing email yields 500 with the order kept, and
success answers 201.

newId stands for the fresh object id minted for the order. -/
def createOrder (env : Env) (req : CreateOrderRequest) (newId : Nat) (st : Store) :
    ApiResponse × Store :=
  if req.items = [] ∨ req.shippingAddress = "" ∨ req.totalAmount = 0 ∨
      req.customerName = "" ∨ req.customerEmail = "" then
    ({ status := 400, message := "Missing required order details.",
       errorCode := none, orderId := none, emailAttempted := false }, st)
  else
    match validateAndTotal st.products req.items with
    | .error e =>
      ({ status := 400, message := orderErrorMessage e,
         errorCode := none, orderId := none, emailAttempted := false }, st)
    | .ok subtotal =>
      let total := subtotal + req.shippingCost.getD 0 + req.taxPrice.getD 0 -
        req.discountAmount.getD 0
      let order := newOrderDoc req newId total
      let st1 : Store := { st with orders := st.orders ++ [order] }
      let st2 : Store := { st1 with products := decrementStocks st1.products req.items }
      if req.paymentMethod = "card" then
        if env.paymentOk then
          let st3 := saveOrder st2 (withIntent order newId)
          if env.emailOk then
            ({ status := 201, message := "", errorCode := none,
               orderId := some newId, emailAttempted := true }, st3)
          else
            ({ status := 500, message := "Failed to create order.",
               errorCode := none, orderId := none, emailAttempted := true },
             { st3 with orders := st3.orders.filter (fun o => ¬(o.id = newId)) })
        else
          ({ status := 500, message := "Failed to create order.",
             errorCode := none, orderId := none, emailAttempted := false },
           { st2 with orders := st2.orders.filter (fun o => ¬(o.id = newId)) })
      else
        if env.emailOk then
          ({ status := 201, message := "Order created successfully",
             errorCode := none, orderId := some newId, emailAttempted := true }, st2)
        else
          ({ status := 500, message := "Failed to create order.",
             errorCode := none, orderId := none, emailAttempted := true }, st2)

/-- The mutation applied to an order when the gateway reports the
intent succeeded: paymentStatus paid, orderStatus processing. -/
def paidOrder (o : OrderDoc) : OrderDoc :=
  { o with paymentStatus := "paid", orderStatus := "processing" }

/-- The mutation applied to an order when the gateway reports the
intent failed: paymentStatus failed. -/
def failedOrder (o : OrderDoc) : OrderDoc :=
  { o with paymentStatus := "failed" }

/-- updatePaymentStatus from the order controller.

The body carries orderId, paymentIntentId and a caller-supplied status;
the source destructures all three but decides only on the status the
gateway reports for paymentIntentId. Gateway status succeeded sets
paymentStatus paid and orderStatus processing, saves, and then awaits a
status-update email inside the same try block (a failing email yields
500 after the save). Gateway status payment-underscore-failed sets
paymentStatus failed and answers 400. Any other gateway status answers
400 with the order untouched. -/
def updatePaymentStatus (env : Env) (orderId : Nat) (paymentIntentId : String)
    (callerStatus : String) (st : Store) : ApiResponse × Store :=
  match findOrder st.orders orderId with
  | none =>
    ({ status := 404, message := "Order not found.",
       errorCode := none, orderId := none, emailAttempted := false }, st)
  | some order =>
    let retrieved := env.retrieveIntent paymentIntentId
    if retrieved = "succeeded" then
      let st' := saveOrder st (paidOrder order)
      if env.emailOk then
        ({ status := 200, message := "Payment status updated to paid.",
           errorCode := none, orderId := none, emailAttempted := true }, st')
      else
        ({ status := 500, message := "Failed to update payment status.",
           errorCode := none, orderId := none, emailAttempted := true }, st')
    else if retrieved = "payment_failed" then
      let st' := saveOrder st (failedOrder order)
      ({ status := 400, message := "Payment failed.",
         errorCode := none, orderId := none, emailAttempted := false }, st')
    else
      ({ status := 400, message := "Payment intent status is not succeeded.",
         errorCode := none, orderId := none, emailAttempted := false }, st)

/-- updateOrderStatus from the admin order controller.

Sets the order's status, appends a status-note-timestamp record to the
status history (the note defaulting via a falsy check), saves, then
attempts the notification email inside a dedicated try-catch whose
handler only logs, so the email outcome influences neither the response
nor the state. now stands for the current timestamp. -/
def updateOrderStatus (env : Env) (orderId : Nat) (reqStatus : String) (note : String)
    (now : Nat) (st : Store) : ApiResponse × Store :=
  match findOrder st.orders orderId with
  | none =>
    ({ status := 404, message := "Order not found",
       errorCode := none, orderId := none, emailAttempted := false }, st)
  | some order =>
    let entry : StatusEntry :=
      { status := reqStatus
        note := if note = "" then "Status updated to " ++ reqStatus else note
        updatedAt := now }
    let order' := { order with
      status := reqStatus
      statusHistory := order.statusHistory ++ [entry] }
    let st' := saveOrder st order'
    ({ status := 200, message := "Order status updated successfully",
       errorCode := none, orderId := some orderId, emailAttempted := true }, st')

/-- The per-item shape produced by the admin getAllOrders transform:
product id, live product name and first image, but price and line total
taken from the embedded item price. -/
structure TransformedItem where
  productId : Nat
  productName : String
  price : Int
  image : Option String
  quantity : Int
  size : String
  total : Int
deriving DecidableEq, Repr

/-- The per-order shape produced by the admin getAllOrders transform
(restricted to the fields the order documents of this code base carry).
items is none when some item's product id no longer resolves, in which
case the source transform would throw. -/
structure TransformedOrder where
  id : Nat
  orderNumber : String
  customerName : String
  customerEmail : String
  userId : Option Nat
  items : Option (List TransformedItem)
  shippingAddress : String
  paymentMethod : String
  paymentStatus : String
  status : String
  statusHistory : List StatusEntry
  totalAmount : Int
deriving DecidableEq, Repr

/-- The last six characters of a string, as the slice with argument
minus six used for order numbers. -/
def lastSix (s : String) : String :=
  String.mk (s.toList.drop (s.length - 6))

/-- One item of the admin getAllOrders transform: the product is looked
up live for name and first image, while price and the line total come
from the embedded item price. -/
def transformItem (ps : List (Nat × Product)) (it : OrderItem) : Option TransformedItem :=
  (findProduct ps it.product).map (fun p =>
    { productId := it.product
      productName := p.name
      price := it.price
      image := p.images.head?
      quantity := it.quantity
      size := it.size
      total := it.price * it.quantity })

/-- The admin getAllOrders transform of one order document. -/
def transformOrder (ps : List (Nat × Product)) (o : OrderDoc) : TransformedOrder :=
  { id := o.id
    orderNumber := lastSix (toString o.id)
    customerName := o.customerName
    customerEmail := o.customerEmail
    userId := o.user
    items := o.items.mapM (transformItem ps)
    shippingAddress := o.shippingAddress
    paymentMethod := o.paymentMethod
    paymentStatus := o.paymentStatus
    status := o.status
    statusHistory := o.statusHistory
    totalAmount := o.totalAmount }

/-- An admin price edit on the catalog: set the price of the product
with the given id, touching nothing else. -/
def setPrice (ps : List (Nat × Product)) (pid : Nat) (v : Int) : List (Nat × Product) :=
  ps.map (fun pr => if pr.1 = pid then (pr.1, { pr.2 with price := v }) else pr)

/-- Whether a character is allowed inside each segment of the email
regex of the auth routes: anything but whitespace and the at sign. -/
def emailChar (c : Char) : Bool :=
  !c.isWhitespace && !(c = '@')

/-- Whether a character list contains a dot that is not its last
element (used on the tail of the domain, so the dot found sits at an
index that is neither first nor last in the domain). -/
def hasDotNotLast : List Char → Bool
  | [] => false
  | [_] => false
  | c :: rest => (c = '.') || hasDotNotLast rest

/-- The domain part of the email regex: some character, then a dot with
at least one character on each side. -/
def domainOk : List Char → Bool
  | [] => false
  | _ :: rest => hasDotNotLast rest

/-- The email-format regex of the auth routes (one or more
non-space-non-at characters, an at sign, one or more such characters, a
dot, one or more such characters), as a decomposition check: no
whitespace anywhere, exactly one at sign splitting the string into a
nonempty local part and a domain with an inner dot. -/
def emailFormatOk (email : String) : Bool :=
  let cs := email.toList
  let lp := cs.takeWhile (fun c => ¬(c = '@'))
  let rest := cs.dropWhile (fun c => ¬(c = '@'))
  cs.all (fun c => !c.isWhitespace) &&
  (cs.countP (fun c => c = '@') == 1) &&
  !lp.isEmpty &&
  (match rest with
   | [] => false
   | _ :: dp => domainOk dp)

/-- Lowercasing as applied by the login route to the supplied email
before the lookup (the JS toLowerCase call, restated by structural
recursion over the characters). -/
def toLowerStr (s : String) : String :=
  String.mk (s.toList.map Char.toLower)

/-- The outcome of the login route: a 400 with a client-facing message
and an internal code, a 500, or a 200 with the token payload data and
the role-dependent redirect. -/
inductive LoginResult where
  | badRequest (message : String) (errorCode : String)
  | success (email : String) (role : String) (redirectUrl : String)
deriving DecidableEq, Repr

/-- The HTTP status of a login outcome. -/
def LoginResult.httpStatus : LoginResult → Nat
  | .badRequest _ _ => 400
  | .success _ _ _ => 200

/-- The client-facing message of a login outcome. -/
def LoginResult.clientMessage : LoginResult → String
  | .badRequest m _ => m
  | .success _ _ _ => ""

/-- The login handler of the auth routes.

compare stands for the bcrypt comparison of the supplied password
against the stored hash. The source validates presence and format,
looks the user up by lowercased email, answers 400 with internal code
USER-underscore-NOT-underscore-FOUND when no user matches and 400 with
internal code INVALID-underscore-PASSWORD when the hash comparison
fails, both carrying the same generic client message; on success it
issues a token and a role-dependent redirect. -/
def login (compare : String → String → Bool) (users : List UserDoc)
    (email password : String) : LoginResult :=
  if email = "" ∨ password = "" then
    .badRequest "Email and password are required" "MISSING_FIELDS"
  else if !emailFormatOk email then
    .badRequest "Invalid email format" "INVALID_EMAIL"
  else
    match users.find? (fun u => u.email = toLowerStr email) with
    | none => .badRequest "Invalid email or password" "USER_NOT_FOUND"
    | some user =>
      if !compare password user.password then
        .badRequest "Invalid email or password" "INVALID_PASSWORD"
      else
        .success user.email user.role
          (if user.role = "admin" then "/admin/dashboard" else "/")

/-! ### Helper lemmas about the store primitives -/

/-- A found order carries the id it was looked up by. -/
theorem findOrder_id {orders : List OrderDoc} {oid : Nat} {o : OrderDoc}
    (h : findOrder orders oid = some o) : o.id = oid := by
  have := List.find?_some h
  simpa using this

/-- Mapping a function that does not change what the predicate sees
commutes with the first-match lookup. -/
theorem find?_map_comm {α : Type} (f : α → α) (p : α → Bool) (l : List α)
    (hf : ∀ x, p (f x) = p x) :
    (l.map f).find? p = (l.find? p).map f := by
  induction l with
  | nil => rfl
  | cons hd tl ih =>
    simp only [List.map_cons, List.find?]
    rw [hf hd]
    cases p hd
    · simpa using ih
    · rfl

/-- Pointwise equal functions map lists equally. -/
theorem map_eq_of_eq_on {α β : Type} (f g : α → β) (l : List α)
    (h : ∀ x ∈ l, f x = g x) : l.map f = l.map g := by
  induction l with
  | nil => rfl
  | cons hd tl ih =>
    simp only [List.map_cons]
    rw [h hd (List.mem_cons_self _ _), ih (fun x hx => h x (List.mem_cons_of_mem _ hx))]

/-- What a lookup sees after a stock decrement: the looked-up product,
with its stock reduced exactly when it is the decremented one. -/
theorem findProduct_decStock (ps : List (Nat × Product)) (tgt : Nat) (q : Int) (pid : Nat) :
    findProduct (decStock ps tgt q) pid =
      (findProduct ps pid).map
        (fun p => if tgt = pid then { p with stock := p.stock - q } else p) := by
  unfold decStock findProduct
  rw [find?_map_comm]
  · cases hfind : ps.find? (fun pr => decide (pr.1 = pid)) with
    | none => rfl
    | some pr0 =>
      have hk : pr0.1 = pid := by simpa using List.find?_some hfind
      by_cases ht : tgt = pid
      · simp [hk, ht]
      · have hk2 : ¬(pr0.1 = tgt) := by rw [hk]; exact fun hc => ht hc.symm
        simp [hk2, ht]
  · intro x
    by_cases hx : x.1 = tgt
    · simp [hx]
    · simp [hx]

/-- Looking up the decremented product sees its stock reduced. -/
theorem findProduct_decStock_self (ps : List (Nat × Product)) (pid : Nat) (q : Int) :
    findProduct (decStock ps pid q) pid =
      (findProduct ps pid).map (fun p => { p with stock := p.stock - q }) := by
  rw [findProduct_decStock]
  cases findProduct ps pid <;> simp

/-- Looking up any other product is unaffected by a stock decrement. -/
theorem findProduct_decStock_other (ps : List (Nat × Product)) (tgt pid : Nat) (q : Int)
    (h : ¬(pid = tgt)) :
    findProduct (decStock ps tgt q) pid = findProduct ps pid := by
  rw [findProduct_decStock]
  have h2 : ¬(tgt = pid) := fun hc => h hc.symm
  cases findProduct ps pid <;> simp [h2]

/-- The stock-decrement loop leaves products outside the item list
untouched. -/
theorem findProduct_decrementStocks_notmem (items : List OrderItem)
    (ps : List (Nat × Product)) (pid : Nat)
    (h : ∀ it ∈ items, ¬(it.product = pid)) :
    findProduct (decrementStocks ps items) pid = findProduct ps pid := by
  induction items generalizing ps with
  | nil => rfl
  | cons it rest ih =>
    rw [decrementStocks, ih _ (fun x hx => h x (List.mem_cons_of_mem _ hx)),
      findProduct_decStock_other]
    intro hc
    exact h it (List.mem_cons_self _ _) hc.symm

/-- With pairwise distinct product ids, the stock-decrement loop
reduces each listed product's stock by exactly its item quantity. -/
theorem findProduct_decrementStocks_mem (items : List OrderItem)
    (ps : List (Nat × Product))
    (hnd : (items.map OrderItem.product).Nodup)
    (it : OrderItem) (hmem : it ∈ items) :
    findProduct (decrementStocks ps items) it.product =
      (findProduct ps it.product).map (fun p => { p with stock := p.stock - it.quantity }) := by
  induction items generalizing ps with
  | nil => cases hmem
  | cons hd rest ih =>
    rw [List.map_cons, List.nodup_cons] at hnd
    rcases List.mem_cons.mp hmem with h | h
    · subst h
      rw [decrementStocks, findProduct_decrementStocks_notmem, findProduct_decStock_self]
      intro x hx hc
      exact hnd.1 (hc ▸ List.mem_map_of_mem OrderItem.product hx)
    · have hne : ¬(it.product = hd.product) := by
        intro hc
        exact hnd.1 (hc ▸ List.mem_map_of_mem OrderItem.product h)
      rw [decrementStocks, ih _ hnd.2 h, findProduct_decStock_other _ _ _ _ hne]

/-- Appending a fresh order makes it findable by its id. -/
theorem findOrder_append_fresh (orders : List OrderDoc) (o : OrderDoc)
    (h : findOrder orders o.id = none) :
    findOrder (orders ++ [o]) o.id = some o := by
  induction orders with
  | nil => simp [findOrder]
  | cons hd tl ih =>
    simp only [findOrder, List.find?] at h ⊢
    cases hh : (decide (hd.id = o.id)) with
    | true => rw [hh] at h; cases h
    | false =>
      rw [hh] at h
      simpa [findOrder] using ih h

/-- Filtering out a fresh id removes nothing from the old collection. -/
theorem filter_ne_fresh (orders : List OrderDoc) (oid : Nat)
    (h : findOrder orders oid = none) :
    orders.filter (fun x => ¬(x.id = oid)) = orders := by
  apply List.filter_eq_self.mpr
  intro a ha
  have := List.find?_eq_none.mp h a ha
  simpa using this

/-- Replacing by a fresh id is the identity on the old collection. -/
theorem map_replace_fresh (orders : List OrderDoc) (o' : OrderDoc)
    (h : findOrder orders o'.id = none) :
    orders.map (fun x => if x.id = o'.id then o' else x) = orders := by
  have hall := List.find?_eq_none.mp h
  calc orders.map (fun x => if x.id = o'.id then o' else x)
      = orders.map id := by
        apply List.map_congr_left
        intro a ha
        have := hall a ha
        simp only [decide_eq_true_eq] at this
        simp [this]
    _ = orders := List.map_id orders

/-- Saving a document over a collection that contains its id lets the
subsequent lookup see exactly the saved document. -/
theorem findOrder_save (orders : List OrderDoc) (oid : Nat) (o' : OrderDoc)
    (hid : o'.id = oid) (order : OrderDoc)
    (hfound : findOrder orders oid = some order) :
    findOrder (orders.map (fun x => if x.id = o'.id then o' else x)) oid = some o' := by
  induction orders with
  | nil => cases hfound
  | cons hd tl ih =>
    by_cases h : hd.id = oid
    · have h2 : hd.id = o'.id := by rw [h, hid]
      simp [findOrder, List.find?, h2, hid]
    · have h2 : ¬(hd.id = o'.id) := fun hc => h (by rw [hc, hid])
      have hfound' : findOrder tl oid = some order := by
        simpa [findOrder, List.find?, h] using hfound
      simpa [findOrder, List.find?, h2, h] using ih hfound'

/-- Filtering an id out makes it unfindable. -/
theorem findOrder_filter_ne (orders : List OrderDoc) (oid : Nat) :
    findOrder (orders.filter (fun x => ¬(x.id = oid))) oid = none := by
  apply List.find?_eq_none.mpr
  intro x hx
  have := (List.mem_filter.mp hx).2
  simpa using this

/-- Saving the same document twice is the same as saving it once. -/
theorem saveOrder_idem (st : Store) (o : OrderDoc) :
    saveOrder (saveOrder st o) o = saveOrder st o := by
  simp only [saveOrder, List.map_map]
  congr 1
  apply map_eq_of_eq_on
  intro x hx
  by_cases h : x.id = o.id
  · simp [Function.comp, h]
  · simp [Function.comp, h]

/-- When every item of the list resolves and some item requests more
than the available stock, the validation loop fails with an
insufficient-stock error. -/
theorem validateAndTotal_outOfStock (items : List OrderItem) (ps : List (Nat × Product))
    (hall : ∀ it ∈ items, (findProduct ps it.product).isSome)
    (it0 : OrderItem) (hmem : it0 ∈ items) (p : Product)
    (hp : findProduct ps it0.product = some p) (hq : p.stock < it0.quantity) :
    ∃ nm, validateAndTotal ps items = .error (.outOfStock nm) := by
  induction items with
  | nil => cases hmem
  | cons hd rest ih =>
    obtain ⟨q, hq'⟩ := Option.isSome_iff_exists.mp (hall hd (List.mem_cons_self _ _))
    rcases List.mem_cons.mp hmem with h | h
    · subst h
      rw [hp] at hq'
      cases hq'
      refine ⟨p.name, ?_⟩
      simp [validateAndTotal, hp, hq]
    · by_cases hs : q.stock < hd.quantity
      · refine ⟨q.name, ?_⟩
        simp [validateAndTotal, hq', hs]
      · obtain ⟨nm, hnm⟩ := ih (fun x hx => hall x (List.mem_cons_of_mem _ hx)) h
        refine ⟨nm, ?_⟩
        simp [validateAndTotal, hq', hs, hnm]

/-- Whatever branch createOrder takes, an order findable under the
fresh id in the resulting collection carries the server-computed
total. -/
theorem createOrder_persisted_total
    (env : Env) (req : CreateOrderRequest) (newId : Nat) (st : Store)
    (s : Int) (o : OrderDoc)
    (hmiss : ¬(req.items = [] ∨ req.shippingAddress = "" ∨ req.totalAmount = 0 ∨
      req.customerName = "" ∨ req.customerEmail = ""))
    (hval : validateAndTotal st.products req.items = .ok s)
    (hfresh : findOrder st.orders newId = none)
    (hfound : findOrder (createOrder env req newId st).2.orders newId = some o) :
    o.totalAmount = s + req.shippingCost.getD 0 + req.taxPrice.getD 0 -
      req.discountAmount.getD 0 := by
  by_cases hcard : req.paymentMethod = "card"
  · cases hpay : env.paymentOk with
    | true =>
      cases hemail : env.emailOk with
      | true =>
        have horder := findOrder_append_fresh st.orders
          (newOrderDoc req newId (s + req.shippingCost.getD 0 + req.taxPrice.getD 0 -
            req.discountAmount.getD 0)) hfresh
        have hsave := findOrder_save
          (st.orders ++ [newOrderDoc req newId (s + req.shippingCost.getD 0 +
            req.taxPrice.getD 0 - req.discountAmount.getD 0)]) newId
          (withIntent (newOrderDoc req newId (s + req.shippingCost.getD 0 +
            req.taxPrice.getD 0 - req.discountAmount.getD 0)) newId) rfl _ horder
        simp only [createOrder, hval, hcard, hpay, hemail, if_neg hmiss, if_pos,
          if_true, saveOrder] at hfound
        rw [hsave] at hfound
        cases hfound
        rfl
      | false =>
        simp only [createOrder, hval, hcard, hpay, hemail, if_neg hmiss, if_pos,
          if_true, Bool.false_eq_true, if_false, saveOrder] at hfound
        rw [findOrder_filter_ne] at hfound
        cases hfound
    | false =>
      simp only [createOrder, hval, hcard, hpay, if_neg hmiss, if_pos,
        Bool.false_eq_true, if_false] at hfound
      rw [findOrder_filter_ne] at hfound
      cases hfound
  · have horder : findOrder (st.orders ++ [newOrderDoc req newId (s +
        req.shippingCost.getD 0 + req.taxPrice.getD 0 - req.discountAmount.getD 0)]) newId =
        some (newOrderDoc req newId (s + req.shippingCost.getD 0 + req.taxPrice.getD 0 -
          req.discountAmount.getD 0)) :=
      findOrder_append_fresh st.orders
        (newOrderDoc req newId (s + req.shippingCost.getD 0 + req.taxPrice.getD 0 -
          req.discountAmount.getD 0)) hfresh
    cases hemail : env.emailOk with
    | true =>
      simp only [createOrder, hval, hemail, if_neg hmiss, if_neg hcard, if_pos,
        if_true] at hfound
      rw [horder] at hfound
      cases hfound
      rfl
    | false =>
      simp only [createOrder, hval, hemail, if_neg hmiss, if_neg hcard,
        Bool.false_eq_true, if_false] at hfound
      rw [horder] at hfound
      cases hfound
      rfl

/-! ### Concrete fixtures used by witnesses and counterexamples -/

/-- Environment in which every external call succeeds. -/
def envAllOk : Env := { paymentOk := true, emailOk := true, retrieveIntent := fun _ => "succeeded" }

/-- Environment in which the email transport is down. -/
def envMailDown : Env := { paymentOk := true, emailOk := false, retrieveIntent := fun _ => "succeeded" }

/-- Environment in which payment-intent creation fails. -/
def envPayDown : Env := { paymentOk := false, emailOk := true, retrieveIntent := fun _ => "succeeded" }

/-- A product with stock available. -/
def shirt : Product := { name := "Shirt", price := 20, stock := 5, images := ["shirt.png"] }

/-- A product with zero stock. -/
def hat : Product := { name := "Hat", price := 7, stock := 0, images := [] }

/-- A two-product catalog. -/
def catalog : List (Nat × Product) := [(1, shirt), (2, hat)]

/-- A store with the two-product catalog and no orders. -/
def store0 : Store := { products := catalog, orders := [] }

/-- A card-payment request for two shirts. -/
def cardReq : CreateOrderRequest :=
  { items := [{ product := 1, quantity := 2, price := 20, size := "M" }],
    shippingAddress := "addr", totalAmount := 999, customerName := "Bob",
    customerEmail := "bob@x.com", paymentMethod := "card",
    shippingCost := some 5, taxPrice := some 3, discountAmount := some 4 }

/-- The same cart paid cash on delivery. -/
def codReq : CreateOrderRequest := { cardReq with paymentMethod := "cod" }

/-- A card request for one hat, which is out of stock. -/
def hatReq : CreateOrderRequest :=
  { cardReq with items := [{ product := 2, quantity := 1, price := 7, size := "M" }] }

/-! ### Claim theorems -/

/-- Claim C1: for every valid cart accepted by createOrder, the
persisted order's totalAmount is the sum over items of server-fetched
product price times quantity, plus shipping cost and tax and minus the
discount, and the client-supplied totalAmount field has no influence on
the handler's outcome beyond its falsy presence check: any other
nonzero client total yields the identical response and state. -/
theorem claim1_total_from_server_prices
    (env : Env) (req : CreateOrderRequest) (newId : Nat) (st : Store)
    (s : Int) (o : OrderDoc) (t' : Int)
    (hmiss : ¬(req.items = [] ∨ req.shippingAddress = "" ∨ req.totalAmount = 0 ∨
      req.customerName = "" ∨ req.customerEmail = ""))
    (hval : validateAndTotal st.products req.items = .ok s)
    (hfresh : findOrder st.orders newId = none)
    (hfound : findOrder (createOrder env req newId st).2.orders newId = some o)
    (ht' : ¬(t' = 0)) :
    o.totalAmount = s + req.shippingCost.getD 0 + req.taxPrice.getD 0 -
      req.discountAmount.getD 0 ∧
    createOrder env { req with totalAmount := t' } newId st = createOrder env req newId st := by
  constructor
  · exact createOrder_persisted_total env req newId st s o hmiss hval hfresh hfound
  · push_neg at hmiss
    have h1 : ¬(({ req with totalAmount := t' } : CreateOrderRequest).items = [] ∨
        ({ req with totalAmount := t' } : CreateOrderRequest).shippingAddress = "" ∨
        ({ req with totalAmount := t' } : CreateOrderRequest).totalAmount = 0 ∨
        ({ req with totalAmount := t' } : CreateOrderRequest).customerName = "" ∨
        ({ req with totalAmount := t' } : CreateOrderRequest).customerEmail = "") := by
      push_neg
      exact ⟨hmiss.1, hmiss.2.1, ht', hmiss.2.2.2.1, hmiss.2.2.2.2⟩
    have h2 : ¬(req.items = [] ∨ req.shippingAddress = "" ∨ req.totalAmount = 0 ∨
        req.customerName = "" ∨ req.customerEmail = "") := by
      push_neg
      exact hmiss
    simp only [createOrder]
    rw [if_neg h1, if_neg h2]
    rfl

/-- Witness for claim C1 on a concrete store and cart: the persisted
total is forty-four, computed as forty of line items plus five shipping
plus three tax minus four discount, and changing the client total to
five changes nothing. -/
theorem claim1_witness :
    ((createOrder envAllOk cardReq 7 store0).2.orders.find? (fun o => o.id = 7)).map
      OrderDoc.totalAmount = some 44 ∧
    createOrder envAllOk { cardReq with totalAmount := 5 } 7 store0 =
      createOrder envAllOk cardReq 7 store0 := by
  have h := claim1_total_from_server_prices envAllOk cardReq 7 store0 40
    (withIntent (newOrderDoc cardReq 7 44) 7) 5
    (by decide) rfl (by decide) (by decide) (by decide)
  exact ⟨by decide, h.2⟩

/-- Claim C2: a cart whose items all resolve but where some item asks
for more than the available stock (such as quantity one of a product
with zero stock) is rejected with the insufficient-stock 400 and the
store is left completely unchanged: no order is created and no stock is
decremented. -/
theorem claim2_out_of_stock_rejected
    (env : Env) (req : CreateOrderRequest) (newId : Nat) (st : Store)
    (item : OrderItem) (p : Product)
    (hmiss : ¬(req.items = [] ∨ req.shippingAddress = "" ∨ req.totalAmount = 0 ∨
      req.customerName = "" ∨ req.customerEmail = ""))
    (hall : ∀ it ∈ req.items, (findProduct st.products it.product).isSome)
    (hmem : item ∈ req.items)
    (hp : findProduct st.products item.product = some p)
    (hstock : p.stock < item.quantity) :
    (createOrder env req newId st).2 = st ∧
    ∃ nm, (createOrder env req newId st).1 =
      { status := 400, message := "Insufficient stock for " ++ nm,
        errorCode := none, orderId := none, emailAttempted := false } := by
  obtain ⟨nm, hnm⟩ :=
    validateAndTotal_outOfStock req.items st.products hall item hmem p hp hstock
  refine ⟨?_, nm, ?_⟩
  · simp [createOrder, hmiss, hnm, orderErrorMessage]
  · simp [createOrder, hmiss, hnm, orderErrorMessage]

/-- Witness for claim C2: ordering one hat while the hat has zero stock
answers the insufficient-stock 400 and leaves the store untouched. -/
theorem claim2_witness :
    (createOrder envAllOk hatReq 7 store0).2 = store0 ∧
    (createOrder envAllOk hatReq 7 store0).1 =
      { status := 400, message := "Insufficient stock for Hat",
        errorCode := none, orderId := none, emailAttempted := false } := by
  have h := claim2_out_of_stock_rejected envAllOk hatReq 7 store0
    { product := 2, quantity := 1, price := 7, size := "M" } hat
    (by decide) (by decide) (by decide) (by decide) (by decide)
  exact ⟨h.1, by decide⟩

/-- Claim C3: a successful card order (201 answered) decrements each
purchased product's stock by exactly the purchased quantity and leaves
every other product's stock unchanged (stated for carts whose items
reference pairwise distinct products). -/
theorem claim3_stock_decremented_exactly
    (env : Env) (req : CreateOrderRequest) (newId : Nat) (st : Store) (s : Int)
    (hmiss : ¬(req.items = [] ∨ req.shippingAddress = "" ∨ req.totalAmount = 0 ∨
      req.customerName = "" ∨ req.customerEmail = ""))
    (hval : validateAndTotal st.products req.items = .ok s)
    (hcard : req.paymentMethod = "card")
    (hpay : env.paymentOk = true)
    (hemail : env.emailOk = true)
    (hnd : (req.items.map OrderItem.product).Nodup) :
    (createOrder env req newId st).1.status = 201 ∧
    (∀ it ∈ req.items,
      findProduct (createOrder env req newId st).2.products it.product =
        (findProduct st.products it.product).map
          (fun p => { p with stock := p.stock - it.quantity })) ∧
    (∀ pid, (∀ it ∈ req.items, ¬(it.product = pid)) →
      findProduct (createOrder env req newId st).2.products pid =
        findProduct st.products pid) := by
  have hprod : (createOrder env req newId st).2.products =
      decrementStocks st.products req.items := by
    simp [createOrder, hmiss, hval, hcard, hpay, hemail, saveOrder]
  refine ⟨?_, ?_, ?_⟩
  · simp [createOrder, hmiss, hval, hcard, hpay, hemail]
  · intro it hit
    rw [hprod]
    exact findProduct_decrementStocks_mem req.items st.products hnd it hit
  · intro pid hpid
    rw [hprod]
    exact findProduct_decrementStocks_notmem req.items st.products pid hpid

/-- Witness for claim C3: after a successful card order of two shirts,
the shirt's stock went from five to three and the hat is untouched. -/
theorem claim3_witness :
    (createOrder envAllOk cardReq 7 store0).1.status = 201 ∧
    findProduct (createOrder envAllOk cardReq 7 store0).2.products 1 =
      some { name := "Shirt", price := 20, stock := 3, images := ["shirt.png"] } ∧
    findProduct (createOrder envAllOk cardReq 7 store0).2.products 2 = some hat := by
  have h := claim3_stock_decremented_exactly envAllOk cardReq 7 store0 40
    (by decide) rfl (by decide) (by decide) (by decide) (by decide)
  exact ⟨h.1, by decide, by decide⟩

/-- Claim C4: when the payment-intent creation fails on a card order,
the handler answers a 500 failure and the just-created order is deleted
again: the order collection afterwards is what it was before the
request. -/
theorem claim4_payment_failure_compensated
    (env : Env) (req : CreateOrderRequest) (newId : Nat) (st : Store) (s : Int)
    (hmiss : ¬(req.items = [] ∨ req.shippingAddress = "" ∨ req.totalAmount = 0 ∨
      req.customerName = "" ∨ req.customerEmail = ""))
    (hval : validateAndTotal st.products req.items = .ok s)
    (hfresh : findOrder st.orders newId = none)
    (hcard : req.paymentMethod = "card")
    (hpay : env.paymentOk = false) :
    (createOrder env req newId st).1.status = 500 ∧
    (createOrder env req newId st).2.orders = st.orders := by
  constructor
  · simp [createOrder, hmiss, hval, hcard, hpay]
  · simp only [createOrder, hval, hcard, hpay, if_neg hmiss, if_pos,
      Bool.false_eq_true, if_false]
    rw [List.filter_append, filter_ne_fresh st.orders newId hfresh]
    simp [newOrderDoc]

/-- Witness for claim C4: with the gateway down, the concrete card order
yields a 500 and the store holds no orders afterwards. -/
theorem claim4_witness :
    (createOrder envPayDown cardReq 7 store0).1.status = 500 ∧
    (createOrder envPayDown cardReq 7 store0).2.orders = [] := by
  have h := claim4_payment_failure_compensated envPayDown cardReq 7 store0 40
    (by decide) rfl (by decide) (by decide) (by decide)
  exact ⟨h.1, h.2⟩

/-- Claim C10: the compensating delete after a failed payment-intent
creation removes only the order document; the stock decrements already
applied are not reversed, so each purchased product's stock stays
reduced by its requested quantity even though no order remains. -/
theorem claim10_stock_not_reversed
    (env : Env) (req : CreateOrderRequest) (newId : Nat) (st : Store) (s : Int)
    (hmiss : ¬(req.items = [] ∨ req.shippingAddress = "" ∨ req.totalAmount = 0 ∨
      req.customerName = "" ∨ req.customerEmail = ""))
    (hval : validateAndTotal st.products req.items = .ok s)
    (hfresh : findOrder st.orders newId = none)
    (hcard : req.paymentMethod = "card")
    (hpay : env.paymentOk = false)
    (hnd : (req.items.map OrderItem.product).Nodup) :
    (createOrder env req newId st).2.orders = st.orders ∧
    (∀ it ∈ req.items,
      findProduct (createOrder env req newId st).2.products it.product =
        (findProduct st.products it.product).map
          (fun p => { p with stock := p.stock - it.quantity })) := by
  have hprod : (createOrder env req newId st).2.products =
      decrementStocks st.products req.items := by
    simp [createOrder, hmiss, hval, hcard, hpay]
  constructor
  · simp only [createOrder, hval, hcard, hpay, if_neg hmiss, if_pos,
      Bool.false_eq_true, if_false]
    rw [List.filter_append, filter_ne_fresh st.orders newId hfresh]
    simp [newOrderDoc]
  · intro it hit
    rw [hprod]
    exact findProduct_decrementStocks_mem req.items st.products hnd it hit

/-- Witness for claim C10: after the failed card order, no order exists
but the shirt's stock is already down from five to three. -/
theorem claim10_witness :
    (createOrder envPayDown cardReq 7 store0).2.orders = [] ∧
    findProduct (createOrder envPayDown cardReq 7 store0).2.products 1 =
      some { name := "Shirt", price := 20, stock := 3, images := ["shirt.png"] } := by
  have h := claim10_stock_not_reversed envPayDown cardReq 7 store0 40
    (by decide) rfl (by decide) (by decide) (by decide) (by decide)
  exact ⟨h.1, by decide⟩

/-- Environment whose gateway reports the intent failed. -/
def envFailedIntent : Env :=
  { paymentOk := true, emailOk := true, retrieveIntent := fun _ => "payment_failed" }

/-- Environment whose gateway reports an intent state that is neither
succeeded nor failed. -/
def envWeirdIntent : Env :=
  { paymentOk := true, emailOk := true, retrieveIntent := fun _ => "requires_action" }

/-- A persisted pending order used by the payment-update witnesses. -/
def order7 : OrderDoc := newOrderDoc cardReq 7 44

/-- A store holding the catalog and the pending order. -/
def storeWithOrder : Store := { products := catalog, orders := [order7] }

/-- Claim C5: updatePaymentStatus decides the outcome solely from the
intent status retrieved from the gateway — the caller-supplied status
never influences response or state — mapping the retrieved status
succeeded to paymentStatus paid with a status-update email attempt, the
retrieved failed status to paymentStatus failed, and answering a 400
failure with the order and store completely unchanged for any other
retrieved status. -/
theorem claim5_gateway_status_authoritative
    (env1 env2 env3 : Env) (oid : Nat) (pid : String) (cs cs' : String)
    (st : Store) (order : OrderDoc)
    (hfound : findOrder st.orders oid = some order)
    (h1 : env1.retrieveIntent pid = "succeeded")
    (h2 : env2.retrieveIntent pid = "payment_failed")
    (h3a : ¬(env3.retrieveIntent pid = "succeeded"))
    (h3b : ¬(env3.retrieveIntent pid = "payment_failed")) :
    (∀ env : Env, updatePaymentStatus env oid pid cs st = updatePaymentStatus env oid pid cs' st) ∧
    ((findOrder (updatePaymentStatus env1 oid pid cs st).2.orders oid).map
        OrderDoc.paymentStatus = some "paid" ∧
      (updatePaymentStatus env1 oid pid cs st).1.emailAttempted = true) ∧
    (findOrder (updatePaymentStatus env2 oid pid cs st).2.orders oid).map
        OrderDoc.paymentStatus = some "failed" ∧
    updatePaymentStatus env3 oid pid cs st =
      ({ status := 400, message := "Payment intent status is not succeeded.",
         errorCode := none, orderId := none, emailAttempted := false }, st) := by
  have hid := findOrder_id hfound
  refine ⟨fun env => rfl, ⟨?_, ?_⟩, ?_, ?_⟩
  · have hst : (updatePaymentStatus env1 oid pid cs st).2 = saveOrder st (paidOrder order) := by
      cases hemail : env1.emailOk <;> simp [updatePaymentStatus, hfound, h1, hemail]
    rw [hst]
    rw [saveOrder]
    rw [findOrder_save st.orders oid (paidOrder order) hid order hfound]
    rfl
  · cases hemail : env1.emailOk <;> simp [updatePaymentStatus, hfound, h1, hemail]
  · have hst : (updatePaymentStatus env2 oid pid cs st).2 = saveOrder st (failedOrder order) := by
      simp [updatePaymentStatus, hfound, h2]
    rw [hst]
    rw [saveOrder]
    rw [findOrder_save st.orders oid (failedOrder order) hid order hfound]
    rfl
  · simp [updatePaymentStatus, hfound, h3a, h3b]

/-- Witness for claim C5 on the concrete pending order: the three
gateway answers produce paid, failed, and the unchanged-store 400,
and swapping the caller-claimed status changes nothing. -/
theorem claim5_witness :
    (updatePaymentStatus envAllOk 7 "pi_7" "paid" storeWithOrder =
      updatePaymentStatus envAllOk 7 "pi_7" "whatever" storeWithOrder) ∧
    (findOrder (updatePaymentStatus envAllOk 7 "pi_7" "paid" storeWithOrder).2.orders 7).map
      OrderDoc.paymentStatus = some "paid" ∧
    (findOrder (updatePaymentStatus envFailedIntent 7 "pi_7" "paid" storeWithOrder).2.orders 7).map
      OrderDoc.paymentStatus = some "failed" ∧
    updatePaymentStatus envWeirdIntent 7 "pi_7" "paid" storeWithOrder =
      ({ status := 400, message := "Payment intent status is not succeeded.",
         errorCode := none, orderId := none, emailAttempted := false }, storeWithOrder) := by
  have h := claim5_gateway_status_authoritative envAllOk envFailedIntent envWeirdIntent
    7 "pi_7" "paid" "whatever" storeWithOrder order7 (by decide) rfl rfl
    (by decide) (by decide)
  exact ⟨h.1 envAllOk, h.2.1.1, h.2.2.1, h.2.2.2⟩

/-- Claim C6: when the gateway reports succeeded, updatePaymentStatus
is idempotent: running it a second time leaves the store exactly as
after the first run, the order's paymentStatus is paid, and its status
history gained no entries at all. -/
theorem claim6_succeeded_update_idempotent
    (env : Env) (oid : Nat) (pid : String) (cs : String) (st : Store) (order : OrderDoc)
    (hfound : findOrder st.orders oid = some order)
    (hsucc : env.retrieveIntent pid = "succeeded") :
    (updatePaymentStatus env oid pid cs (updatePaymentStatus env oid pid cs st).2).2 =
      (updatePaymentStatus env oid pid cs st).2 ∧
    (findOrder (updatePaymentStatus env oid pid cs st).2.orders oid).map
      OrderDoc.paymentStatus = some "paid" ∧
    (findOrder (updatePaymentStatus env oid pid cs st).2.orders oid).map
      OrderDoc.statusHistory = some order.statusHistory := by
  have hid := findOrder_id hfound
  have hst1 : (updatePaymentStatus env oid pid cs st).2 = saveOrder st (paidOrder order) := by
    cases hemail : env.emailOk <;> simp [updatePaymentStatus, hfound, hsucc, hemail]
  have hfound1 : findOrder (saveOrder st (paidOrder order)).orders oid = some (paidOrder order) := by
    rw [saveOrder]
    exact findOrder_save st.orders oid (paidOrder order) hid order hfound
  have hst2 : (updatePaymentStatus env oid pid cs (saveOrder st (paidOrder order))).2 =
      saveOrder (saveOrder st (paidOrder order)) (paidOrder (paidOrder order)) := by
    cases hemail : env.emailOk <;> simp [updatePaymentStatus, hfound1, hsucc, hemail]
  have hpp : paidOrder (paidOrder order) = paidOrder order := rfl
  refine ⟨?_, ?_, ?_⟩
  · rw [hst1, hst2, hpp, saveOrder_idem]
  · rw [hst1, hfound1]
    rfl
  · rw [hst1, hfound1]
    rfl

/-- Witness for claim C6: running the succeeded update twice on the
concrete pending order equals running it once, with paymentStatus paid
and an empty status history both times. -/
theorem claim6_witness :
    (updatePaymentStatus envAllOk 7 "pi_7" "paid"
        (updatePaymentStatus envAllOk 7 "pi_7" "paid" storeWithOrder).2).2 =
      (updatePaymentStatus envAllOk 7 "pi_7" "paid" storeWithOrder).2 ∧
    (findOrder (updatePaymentStatus envAllOk 7 "pi_7" "paid" storeWithOrder).2.orders 7).map
      OrderDoc.paymentStatus = some "paid" ∧
    (findOrder (updatePaymentStatus envAllOk 7 "pi_7" "paid" storeWithOrder).2.orders 7).map
      OrderDoc.statusHistory = some [] := by
  have h := claim6_succeeded_update_idempotent envAllOk 7 "pi_7" "paid"
    storeWithOrder order7 (by decide) rfl
  exact ⟨h.1, h.2.1, h.2.2⟩

/-- Claim C7: with a well-formed email and a nonempty password, login
answers 400 with internal code USER-underscore-NOT-underscore-FOUND
when no user matches the lowercased email, answers 400 with internal
code INVALID-underscore-PASSWORD when a user matches but the hash
comparison fails, and in both cases the client-facing message is the
identical generic string, so the two failures are indistinguishable to
the client. -/
theorem claim7_login_no_user_enumeration
    (compare : String → String → Bool)
    (users1 users2 : List UserDoc) (email1 pw1 email2 pw2 : String) (u : UserDoc)
    (hne1 : ¬(email1 = "")) (hnp1 : ¬(pw1 = "")) (hfmt1 : emailFormatOk email1 = true)
    (hne2 : ¬(email2 = "")) (hnp2 : ¬(pw2 = "")) (hfmt2 : emailFormatOk email2 = true)
    (hnone : users1.find? (fun v => v.email = toLowerStr email1) = none)
    (hsome : users2.find? (fun v => v.email = toLowerStr email2) = some u)
    (hbad : compare pw2 u.password = false) :
    login compare users1 email1 pw1 =
      .badRequest "Invalid email or password" "USER_NOT_FOUND" ∧
    login compare users2 email2 pw2 =
      .badRequest "Invalid email or password" "INVALID_PASSWORD" ∧
    (login compare users1 email1 pw1).httpStatus = 400 ∧
    (login compare users2 email2 pw2).httpStatus = 400 ∧
    (login compare users1 email1 pw1).clientMessage =
      (login compare users2 email2 pw2).clientMessage := by
  have hmiss1 : ¬(email1 = "" ∨ pw1 = "") := by
    intro h; rcases h with h | h
    · exact hne1 h
    · exact hnp1 h
  have hmiss2 : ¬(email2 = "" ∨ pw2 = "") := by
    intro h; rcases h with h | h
    · exact hne2 h
    · exact hnp2 h
  have hl1 : login compare users1 email1 pw1 =
      .badRequest "Invalid email or password" "USER_NOT_FOUND" := by
    simp [login, hmiss1, hfmt1, hnone]
  have hl2 : login compare users2 email2 pw2 =
      .badRequest "Invalid email or password" "INVALID_PASSWORD" := by
    simp [login, hmiss2, hfmt2, hsome, hbad]
  refine ⟨hl1, hl2, ?_, ?_, ?_⟩
  · rw [hl1]; rfl
  · rw [hl2]; rfl
  · rw [hl1, hl2]
    rfl

/-- The one registered user of the login witness database. -/
def alUser : UserDoc :=
  { name := "Al", email := "al@shop.com", password := "secret", role := "user" }

/-- Witness for claim C7: against a one-user database, a wrong password
for the existing address and any password for an unknown address both
yield 400 with the same generic message while the internal codes
differ. -/
theorem claim7_witness :
    login (fun p h => p = h) [alUser] "noone@shop.com" "x" =
      .badRequest "Invalid email or password" "USER_NOT_FOUND" ∧
    login (fun p h => p = h) [alUser] "Al@Shop.com" "wrong" =
      .badRequest "Invalid email or password" "INVALID_PASSWORD" := by
  have h := claim7_login_no_user_enumeration (fun p h => p = h)
    [alUser] [alUser] "noone@shop.com" "x" "Al@Shop.com" "wrong" alUser
    (by decide) (by decide) (by decide) (by decide) (by decide) (by decide)
    (by decide) (by decide) (by decide)
  exact ⟨h.1, h.2.1⟩

/-- What a lookup sees after an admin price edit: the looked-up
product, with its price replaced exactly when it is the edited one. -/
theorem findProduct_setPrice (ps : List (Nat × Product)) (pid : Nat) (v : Int) (qid : Nat) :
    findProduct (setPrice ps pid v) qid =
      (findProduct ps qid).map (fun p => if pid = qid then { p with price := v } else p) := by
  unfold setPrice findProduct
  rw [find?_map_comm]
  · cases hfind : ps.find? (fun pr => decide (pr.1 = qid)) with
    | none => rfl
    | some pr0 =>
      have hk : pr0.1 = qid := by simpa using List.find?_some hfind
      by_cases ht : pid = qid
      · simp [hk, ht]
      · have hk2 : ¬(pr0.1 = pid) := by rw [hk]; exact fun hc => ht hc.symm
        simp [hk2, ht]
  · intro x
    by_cases hx : x.1 = pid
    · simp [hx]
    · simp [hx]

/-- The admin transform of a line item reads only the live name and
images of the product, never its live price, so a price edit leaves the
transform unchanged. -/
theorem transformItem_setPrice (ps : List (Nat × Product)) (pid : Nat) (v : Int)
    (it : OrderItem) :
    transformItem (setPrice ps pid v) it = transformItem ps it := by
  unfold transformItem
  rw [findProduct_setPrice]
  cases findProduct ps it.product with
  | none => rfl
  | some p =>
    by_cases h : pid = it.product
    · simp [h]
    · simp [h]

/-- Claim C9: order line items embed a snapshot of price at purchase
time, so an admin edit of a catalog product's price changes neither the
stored order documents nor the admin view of any order: the per-item
prices, line totals and the stored totalAmount of the transform are
computed from the embedded item price, not the live product price. -/
theorem claim9_price_snapshot (st : Store) (pid : Nat) (v : Int) (o : OrderDoc) :
    ({ st with products := setPrice st.products pid v } : Store).orders = st.orders ∧
    transformOrder (setPrice st.products pid v) o = transformOrder st.products o := by
  constructor
  · rfl
  · unfold transformOrder
    rw [show transformItem (setPrice st.products pid v) = transformItem st.products from
      funext (transformItem_setPrice st.products pid v)]

/-- Counterexample to claim C8 as stated: with the email transport
down, a card order that passed validation and obtained its payment
intent is answered with a 500 instead of succeeding, and the handler's
state change is rolled back — the just-created order is deleted, so the
order collection is empty afterwards. -/
theorem claim8_counterexample :
    (createOrder envMailDown cardReq 7 store0).1.status = 500 ∧
    (createOrder envMailDown cardReq 7 store0).2.orders = [] := by
  decide

/-- Claim C8 as amended: an email-send failure is non-fatal only in the
admin order-status-update handler, whose response and state never
depend on the email outcome. In createOrder and updatePaymentStatus an
email failure fails the request with a 500: on the card path the
just-created order is additionally deleted by the surrounding catch,
while on the non-card path the order stays persisted and in
updatePaymentStatus the paid status stays persisted (state is kept,
but the request still fails). -/
theorem claim8_email_failure_fatal_except_admin
    (env e1 e2 : Env)
    (reqA reqB : CreateOrderRequest) (newIdA newIdB : Nat)
    (stA stB stC stD : Store) (sA sB : Int)
    (oidC : Nat) (pidC csC : String) (orderC : OrderDoc)
    (oidD : Nat) (rsD ntD : String) (nowD : Nat)
    (hemail : env.emailOk = false) (hpay : env.paymentOk = true)
    (hmissA : ¬(reqA.items = [] ∨ reqA.shippingAddress = "" ∨ reqA.totalAmount = 0 ∨
      reqA.customerName = "" ∨ reqA.customerEmail = ""))
    (hvalA : validateAndTotal stA.products reqA.items = .ok sA)
    (hcardA : reqA.paymentMethod = "card")
    (hmissB : ¬(reqB.items = [] ∨ reqB.shippingAddress = "" ∨ reqB.totalAmount = 0 ∨
      reqB.customerName = "" ∨ reqB.customerEmail = ""))
    (hvalB : validateAndTotal stB.products reqB.items = .ok sB)
    (hfreshB : findOrder stB.orders newIdB = none)
    (hcodB : ¬(reqB.paymentMethod = "card"))
    (hfoundC : findOrder stC.orders oidC = some orderC)
    (hsuccC : env.retrieveIntent pidC = "succeeded") :
    ((createOrder env reqA newIdA stA).1.status = 500 ∧
      findOrder (createOrder env reqA newIdA stA).2.orders newIdA = none) ∧
    ((createOrder env reqB newIdB stB).1.status = 500 ∧
      findOrder (createOrder env reqB newIdB stB).2.orders newIdB =
        some (newOrderDoc reqB newIdB (sB + reqB.shippingCost.getD 0 +
          reqB.taxPrice.getD 0 - reqB.discountAmount.getD 0))) ∧
    ((updatePaymentStatus env oidC pidC csC stC).1.status = 500 ∧
      (findOrder (updatePaymentStatus env oidC pidC csC stC).2.orders oidC).map
        OrderDoc.paymentStatus = some "paid") ∧
    updateOrderStatus e1 oidD rsD ntD nowD stD = updateOrderStatus e2 oidD rsD ntD nowD stD := by
  refine ⟨⟨?_, ?_⟩, ⟨?_, ?_⟩, ⟨?_, ?_⟩, rfl⟩
  · simp [createOrder, hmissA, hvalA, hcardA, hpay, hemail]
  · simp only [createOrder, hvalA, hcardA, hpay, hemail, if_neg hmissA, if_pos,
      if_true, Bool.false_eq_true, if_false, saveOrder]
    rw [findOrder_filter_ne]
  · simp [createOrder, hmissB, hvalB, hcodB, hemail]
  · have horder : findOrder (stB.orders ++ [newOrderDoc reqB newIdB (sB +
        reqB.shippingCost.getD 0 + reqB.taxPrice.getD 0 - reqB.discountAmount.getD 0)]) newIdB =
        some (newOrderDoc reqB newIdB (sB + reqB.shippingCost.getD 0 + reqB.taxPrice.getD 0 -
          reqB.discountAmount.getD 0)) :=
      findOrder_append_fresh stB.orders
        (newOrderDoc reqB newIdB (sB + reqB.shippingCost.getD 0 + reqB.taxPrice.getD 0 -
          reqB.discountAmount.getD 0)) hfreshB
    simp only [createOrder, hvalB, hemail, if_neg hmissB, if_neg hcodB,
      Bool.false_eq_true, if_false]
    rw [horder]
  · simp [updatePaymentStatus, hfoundC, hsuccC, hemail]
  · have hidC := findOrder_id hfoundC
    have hst : (updatePaymentStatus env oidC pidC csC stC).2 =
        saveOrder stC (paidOrder orderC) := by
      simp [updatePaymentStatus, hfoundC, hsuccC, hemail]
    rw [hst, saveOrder,
      findOrder_save stC.orders oidC (paidOrder orderC) hidC orderC hfoundC]
    rfl

/-- Witness for the amended claim C8 on concrete stores: the card order
fails with 500 and vanishes, the cash order fails with 500 but stays,
the payment update fails with 500 but the order stays paid, and the
admin status update ignores the email outcome entirely. -/
theorem claim8_witness :
    ((createOrder envMailDown cardReq 7 store0).1.status = 500 ∧
      findOrder (createOrder envMailDown cardReq 7 store0).2.orders 7 = none) ∧
    ((createOrder envMailDown codReq 8 store0).1.status = 500 ∧
      findOrder (createOrder envMailDown codReq 8 store0).2.orders 8 =
        some (newOrderDoc codReq 8 44)) ∧
    ((updatePaymentStatus envMailDown 7 "pi_7" "paid" storeWithOrder).1.status = 500 ∧
      (findOrder (updatePaymentStatus envMailDown 7 "pi_7" "paid" storeWithOrder).2.orders 7).map
        OrderDoc.paymentStatus = some "paid") ∧
    updateOrderStatus envMailDown 7 "shipped" "" 123 storeWithOrder =
      updateOrderStatus envAllOk 7 "shipped" "" 123 storeWithOrder := by
  have h := claim8_email_failure_fatal_except_admin envMailDown envMailDown envAllOk
    cardReq codReq 7 8 store0 store0 storeWithOrder storeWithOrder 40 40
    7 "pi_7" "paid" order7 7 "shipped" "" 123
    rfl rfl (by decide) rfl (by decide) (by decide) rfl (by decide) (by decide)
    (by decide) rfl
  exact ⟨⟨h.1.1, h.1.2⟩, ⟨h.2.1.1, by decide⟩, ⟨h.2.2.1.1, h.2.2.1.2⟩, h.2.2.2⟩

end Apna
